import Mathlib

/-!
Verification development for the DataSpy monitoring engine (`src/core.py`).

The Python source is shallowly embedded:

* `datetime.now()` / `time.time()` are modelled by an explicit clock value
  `now : Int` that is passed into each check (all clock reads inside one
  check return the same instant).
* `hashlib.sha256(...).hexdigest()` is modelled by an abstract parameter
  `hash : String → String`; nothing in the claims depends on the concrete
  digest function, only on equality/inequality of digests.  A real sha256
  hexdigest is a non-empty 64-character string; where Python truthiness of
  `task.last_content_hash` matters this is reflected by non-emptiness
  hypotheses.
* `requests.get` is an external collaborator: one check receives its
  outcome in `Env.fetchResult` (`none` models a transport error or a
  non-2xx status, i.e. `raise_for_status` raising).  Each attempted fetch
  is recorded in `fetchLog`.
* SQLite writes can fail; each durable write inside one check is given a
  success/failure oracle bit in `Env`.  A failing write raises before
  changing the store (a single SQLite statement is atomic), and the raised
  exception is caught by the `except` block of `check_task`.
* The in-memory task dict `self.tasks` and the database tables are
  association lists / row lists inside `DataSpyState`.
-/

/-- The `ChangeType` enum of the source. -/
inductive ChangeType where
  | content_changed
  | price_dropped
  | price_rose
  | available
  | unavailable
  | new_element
deriving Repr, DecidableEq

/-- `ChangeType.value`: the string payload of each enum member. -/
def ChangeType.value : ChangeType → String
  | .content_changed => "content_changed"
  | .price_dropped => "price_dropped"
  | .price_rose => "price_rose"
  | .available => "available"
  | .unavailable => "unavailable"
  | .new_element => "new_element"

/-- Python `ChangeType(s)`: look an enum member up by its value; `none`
models the `ValueError` raised for an unknown string. -/
def ChangeType.ofValue (s : String) : Option ChangeType :=
  if s = "content_changed" then some .content_changed
  else if s = "price_dropped" then some .price_dropped
  else if s = "price_rose" then some .price_rose
  else if s = "available" then some .available
  else if s = "unavailable" then some .unavailable
  else if s = "new_element" then some .new_element
  else none

/-- The `MonitorTask` dataclass.  Timestamps are modelled as `Int`. -/
structure MonitorTask where
  id : String
  name : String
  url : String
  check_type : String
  selector : Option String := none
  json_path : Option String := none
  check_interval : Int := 3600
  last_check : Option Int := none
  last_content_hash : Option String := none
  last_value : Option String := none
  enabled : Bool := true
  created_at : Int := 0
deriving Repr, DecidableEq

/-- The `ChangeEvent` dataclass. -/
structure ChangeEvent where
  id : String
  task_id : String
  timestamp : Int
  change_type : ChangeType
  old_value : Option String
  new_value : Option String
  screenshot_path : Option String := none
  diff_summary : String := ""
deriving Repr, DecidableEq

/-- One row of the `events` table, as written by `_save_event`
(`change_type` is stored as its string value). -/
structure EventRow where
  id : String
  task_id : String
  timestamp : Int
  change_type : String
  old_value : Option String
  new_value : Option String
  diff_summary : String
deriving Repr, DecidableEq

/-- One row of the `snapshots` table, as written by `_save_snapshot`
(the defaulted `timestamp` column is not modelled). -/
structure SnapshotRow where
  id : String
  task_id : String
  content_hash : String
  content_path : String
deriving Repr, DecidableEq

/-- Outcome oracle for the external effects of one `check_task` call:
the fetch result and one success bit per durable write. -/
structure Env where
  fetchResult : Option String
  snapFileOk : Bool := true
  snapInsertOk : Bool := true
  updateOk : Bool := true
  eventOk : Bool := true
deriving Repr, DecidableEq

/-- The observable state: in-memory task dict, database tables, the
snapshot blob files, and a log of attempted fetches. -/
structure DataSpyState where
  tasks : List (String × MonitorTask)
  dbTasks : List (String × MonitorTask)
  dbEvents : List EventRow
  dbSnapshots : List SnapshotRow
  snapshotFiles : List (String × String)
  fetchLog : List String
deriving Repr, DecidableEq

/-- Association-list lookup (Python `dict.get`). -/
def lookupA (k : String) : List (String × α) → Option α
  | [] => none
  | (k', v) :: rest => if k' = k then some v else lookupA k rest

/-- Association-list in-place update of an existing key (Python mutation
of the object stored under `k`; a no-op when `k` is absent). -/
def updateA (k : String) (v : α) : List (String × α) → List (String × α)
  | [] => []
  | (k', v') :: rest =>
      if k' = k then (k', v) :: rest else (k', v') :: updateA k v rest

/-- Python truthiness of an `Optional[str]`: `None` and `""` are falsy. -/
def truthyOpt : Option String → Bool
  | none => false
  | some s => !s.isEmpty

/-- The change test of `check_task` line 191:
`task.last_content_hash and task.last_content_hash != content_hash`. -/
def changeDetected (last : Option String) (content_hash : String) : Bool :=
  truthyOpt last && (last != some content_hash)

/-- `_update_task_in_db`: `UPDATE tasks SET last_check, last_content_hash,
last_value WHERE id = task.id`. -/
def updateTaskRow (task : MonitorTask) :
    List (String × MonitorTask) → List (String × MonitorTask)
  | [] => []
  | (k, row) :: rest =>
      if k = task.id then
        (k, { row with
                last_check := task.last_check,
                last_content_hash := task.last_content_hash,
                last_value := task.last_value }) :: rest
      else (k, row) :: updateTaskRow task rest

/-- `_save_event`: the row inserted into the `events` table. -/
def eventToRow (e : ChangeEvent) : EventRow :=
  ⟨e.id, e.task_id, e.timestamp, e.change_type.value,
   e.old_value, e.new_value, e.diff_summary⟩

/-- The body of the `try:` block of `check_task` (source lines 179-219),
given the task found and enabled.  `Except.error` models an exception
escaping to the `except` handler; the state returned with it carries the
side effects already performed before the raise. -/
def checkTaskBody (hash : String → String) (env : Env) (now : Int)
    (st : DataSpyState) (task_id : String) (task : MonitorTask) :
    Except String (Option ChangeEvent) × DataSpyState :=
  match env.fetchResult with
  | none => (.error "FetchError", { st with fetchLog := st.fetchLog ++ [task.url] })
  | some content =>
    let st := { st with fetchLog := st.fetchLog ++ [task.url] }
    let content_hash := hash content
    if changeDetected task.last_content_hash content_hash then
      -- change branch: last_content_hash is a truthy string here
      let prev := (task.last_content_hash.getD "")
      let event : ChangeEvent :=
        { id := "evt_" ++ toString now ++ "_" ++ task_id
          task_id := task_id
          timestamp := now
          change_type := ChangeType.content_changed
          old_value := some (prev.take 16 ++ "...")
          new_value := some (content_hash.take 16 ++ "...")
          diff_summary := "Content changed (" ++ toString content.length ++ " bytes)" }
      -- _save_snapshot: write_text, then INSERT INTO snapshots
      if !env.snapFileOk then (.error "SnapshotWriteError", st)
      else
        let snap_id := "snap_" ++ toString now ++ "_" ++ task_id
        let snap_path := "snapshots/" ++ snap_id ++ ".html"
        let st := { st with snapshotFiles := st.snapshotFiles ++ [(snap_path, content)] }
        if !env.snapInsertOk then (.error "SnapshotInsertError", st)
        else
          let st := { st with
            dbSnapshots := st.dbSnapshots ++
              [SnapshotRow.mk snap_id task_id content_hash snap_path] }
          -- in-memory task update
          let task' := { task with
            last_content_hash := some content_hash, last_check := some now }
          let st := { st with tasks := updateA task_id task' st.tasks }
          -- _update_task_in_db
          if !env.updateOk then (.error "PersistenceError", st)
          else
            let st := { st with dbTasks := updateTaskRow task' st.dbTasks }
            -- _save_event
            if !env.eventOk then (.error "EventInsertError", st)
            else
              (.ok (some event), { st with dbEvents := st.dbEvents ++ [eventToRow event] })
    else
      -- no change (or unset baseline): just update last_check
      let task' := { task with last_check := some now }
      let st := { st with tasks := updateA task_id task' st.tasks }
      if !env.updateOk then (.error "PersistenceError", st)
      else (.ok none, { st with dbTasks := updateTaskRow task' st.dbTasks })

/-- `check_task` (source lines 173-223): look the task up, skip missing or
disabled tasks, run the body, and convert any exception into `None`. -/
def checkTask (hash : String → String) (env : Env) (now : Int)
    (st : DataSpyState) (task_id : String) :
    Option ChangeEvent × DataSpyState :=
  match lookupA task_id st.tasks with
  | none => (none, st)
  | some task =>
    if !task.enabled then (none, st)
    else
      match checkTaskBody hash env now st task_id task with
      | (.ok ev, st') => (ev, st')
      | (.error _, st') => (none, st')

/-- The per-task due test of `run_monitor` (lines 279-286): skip disabled
tasks; if `last_check` is set and `now - last_check < check_interval`,
skip; otherwise the task is checked. -/
def isDue (now : Int) (task : MonitorTask) : Bool :=
  if !task.enabled then false
  else
    match task.last_check with
    | some lc => !(now - lc < task.check_interval)
    | none => true

/-- One pass of the `for task_id, task in self.tasks.items():` loop of
`run_monitor`, iterating over the item list read at loop entry while the
state is threaded through the dispatched checks.  Returns the ids that
were dispatched to `check_task`, in order. -/
def runTickAux (hash : String → String) (envOf : String → Env) (now : Int) :
    List (String × MonitorTask) → DataSpyState → List String × DataSpyState
  | [], st => ([], st)
  | (task_id, task) :: rest, st =>
    if isDue now task then
      let st' := (checkTask hash (envOf task_id) now st task_id).2
      let r := runTickAux hash envOf now rest st'
      (task_id :: r.1, r.2)
    else runTickAux hash envOf now rest st

/-- One wake of the scheduler loop over the current task registry. -/
def runTick (hash : String → String) (envOf : String → Env) (now : Int)
    (st : DataSpyState) : List String × DataSpyState :=
  runTickAux hash envOf now st.tasks st

/-- Insert one row into a list already sorted by descending timestamp. -/
def insertDesc (r : EventRow) : List EventRow → List EventRow
  | [] => [r]
  | x :: xs =>
      if x.timestamp ≤ r.timestamp then r :: x :: xs else x :: insertDesc r xs

/-- Sort rows by descending timestamp (`ORDER BY timestamp DESC`; SQLite
leaves the relative order of equal timestamps unspecified, so any
descending arrangement models it). -/
def sortDesc : List EventRow → List EventRow
  | [] => []
  | x :: xs => insertDesc x (sortDesc xs)

/-- The SQL query of `get_events`: optional `WHERE task_id = ?`, then
`ORDER BY timestamp DESC LIMIT ?`. -/
def selectEvents (db : List EventRow) (task_id : Option String)
    (limit : Nat) : List EventRow :=
  let rows := match task_id with
    | some tid => db.filter (fun r => r.task_id = tid)
    | none => db
  (sortDesc rows).take limit

/-- Rebuild a `ChangeEvent` from a row (lines 320-329); `none` models the
`ValueError` of `ChangeType(row[3])` on a corrupt row. -/
def rowToEvent (r : EventRow) : Option ChangeEvent :=
  (ChangeType.ofValue r.change_type).map fun ct =>
    { id := r.id, task_id := r.task_id, timestamp := r.timestamp,
      change_type := ct, old_value := r.old_value, new_value := r.new_value,
      diff_summary := r.diff_summary }

/-- Row-by-row conversion; the first failing row aborts the whole call
(the Python loop lets the `ValueError` propagate). -/
def mapOpt (f : α → Option β) : List α → Option (List β)
  | [] => some []
  | x :: xs =>
    match f x with
    | none => none
    | some y => (mapOpt f xs).map (y :: ·)

/-- `get_events` (source lines 299-330). -/
def get_events (db : List EventRow) (task_id : Option String)
    (limit : Nat) : Option (List ChangeEvent) :=
  mapOpt rowToEvent (selectEvents db task_id limit)

section HelperLemmas

variable {α : Type}

theorem lookupA_updateA_self (k : String) (v : α) (l : List (String × α)) :
    lookupA k (updateA k v l) = (lookupA k l).map fun _ => v := by
  induction l with
  | nil => rfl
  | cons p rest ih =>
    obtain ⟨k', v'⟩ := p
    by_cases h : k' = k <;> simp [lookupA, updateA, h, ih]

theorem lookupA_updateA_ne (k k' : String) (v : α) (l : List (String × α))
    (h : k' ≠ k) : lookupA k' (updateA k v l) = lookupA k' l := by
  induction l with
  | nil => rfl
  | cons p rest ih =>
    obtain ⟨k'', v'⟩ := p
    by_cases hk : k'' = k
    · subst hk
      simp [lookupA, updateA, Ne.symm h]
    · simp [lookupA, updateA, hk, ih]

end HelperLemmas

/-- The in-memory task after a check that found no change (line 217). -/
def taskTouched (t : MonitorTask) (now : Int) : MonitorTask :=
  { t with last_check := some now }

/-- The in-memory task after a check that detected a change (207-208). -/
def taskRebased (t : MonitorTask) (now : Int) (content_hash : String) :
    MonitorTask :=
  { t with last_content_hash := some content_hash, last_check := some now }

/-- The snapshot id `snap_{int(time.time())}_{task_id}`. -/
def snapIdOf (now : Int) (task_id : String) : String :=
  "snap_" ++ toString now ++ "_" ++ task_id

/-- The snapshot blob path. -/
def snapPathOf (now : Int) (task_id : String) : String :=
  "snapshots/" ++ snapIdOf now task_id ++ ".html"

/-- The `ChangeEvent` built at lines 193-201. -/
def changeEventOf (now : Int) (task_id prev content_hash content : String) :
    ChangeEvent :=
  { id := "evt_" ++ toString now ++ "_" ++ task_id
    task_id := task_id
    timestamp := now
    change_type := ChangeType.content_changed
    old_value := some (prev.take 16 ++ "...")
    new_value := some (content_hash.take 16 ++ "...")
    diff_summary := "Content changed (" ++ toString content.length ++ " bytes)" }

section Scenarios

variable (hash : String → String) (now : Int) (st : DataSpyState)
variable (tid : String) (t : MonitorTask) (c : String)
variable (fr : Option String) (sf si uo eo : Bool)

theorem checkTask_missing (env : Env)
    (hlookup : lookupA tid st.tasks = none) :
    checkTask hash env now st tid = (none, st) := by
  simp [checkTask, hlookup]

theorem checkTask_disabled (env : Env)
    (hlookup : lookupA tid st.tasks = some t) (hen : t.enabled = false) :
    checkTask hash env now st tid = (none, st) := by
  simp [checkTask, hlookup, hen]

theorem checkTask_fetchFail
    (hlookup : lookupA tid st.tasks = some t) (hen : t.enabled = true) :
    checkTask hash ⟨none, sf, si, uo, eo⟩ now st tid =
      (none, { st with fetchLog := st.fetchLog ++ [t.url] }) := by
  simp [checkTask, hlookup, hen, checkTaskBody]

theorem checkTask_noChange
    (hlookup : lookupA tid st.tasks = some t) (hen : t.enabled = true)
    (hch : changeDetected t.last_content_hash (hash c) = false) :
    checkTask hash ⟨some c, sf, si, true, eo⟩ now st tid =
      (none, { st with
        fetchLog := st.fetchLog ++ [t.url],
        tasks := updateA tid (taskTouched t now) st.tasks,
        dbTasks := updateTaskRow (taskTouched t now) st.dbTasks }) := by
  simp [checkTask, hlookup, hen, checkTaskBody, hch, taskTouched]

theorem checkTask_noChange_updateFail
    (hlookup : lookupA tid st.tasks = some t) (hen : t.enabled = true)
    (hch : changeDetected t.last_content_hash (hash c) = false) :
    checkTask hash ⟨some c, sf, si, false, eo⟩ now st tid =
      (none, { st with
        fetchLog := st.fetchLog ++ [t.url],
        tasks := updateA tid (taskTouched t now) st.tasks }) := by
  simp [checkTask, hlookup, hen, checkTaskBody, hch, taskTouched]

theorem checkTask_change_ok
    (hlookup : lookupA tid st.tasks = some t) (hen : t.enabled = true)
    (hch : changeDetected t.last_content_hash (hash c) = true) :
    checkTask hash ⟨some c, true, true, true, true⟩ now st tid =
      (some (changeEventOf now tid (t.last_content_hash.getD "") (hash c) c),
       { st with
        fetchLog := st.fetchLog ++ [t.url],
        snapshotFiles := st.snapshotFiles ++ [(snapPathOf now tid, c)],
        dbSnapshots := st.dbSnapshots ++
          [SnapshotRow.mk (snapIdOf now tid) tid (hash c) (snapPathOf now tid)],
        tasks := updateA tid (taskRebased t now (hash c)) st.tasks,
        dbTasks := updateTaskRow (taskRebased t now (hash c)) st.dbTasks,
        dbEvents := st.dbEvents ++
          [eventToRow (changeEventOf now tid (t.last_content_hash.getD "") (hash c) c)] }) := by
  simp [checkTask, hlookup, hen, checkTaskBody, hch, taskRebased,
        changeEventOf, snapIdOf, snapPathOf]

theorem checkTask_change_snapFileFail
    (hlookup : lookupA tid st.tasks = some t) (hen : t.enabled = true)
    (hch : changeDetected t.last_content_hash (hash c) = true) :
    checkTask hash ⟨some c, false, si, uo, eo⟩ now st tid =
      (none, { st with fetchLog := st.fetchLog ++ [t.url] }) := by
  simp [checkTask, hlookup, hen, checkTaskBody, hch]

theorem checkTask_change_snapInsertFail
    (hlookup : lookupA tid st.tasks = some t) (hen : t.enabled = true)
    (hch : changeDetected t.last_content_hash (hash c) = true) :
    checkTask hash ⟨some c, true, false, uo, eo⟩ now st tid =
      (none, { st with
        fetchLog := st.fetchLog ++ [t.url],
        snapshotFiles := st.snapshotFiles ++ [(snapPathOf now tid, c)] }) := by
  simp [checkTask, hlookup, hen, checkTaskBody, hch, snapIdOf, snapPathOf]

theorem checkTask_change_updateFail
    (hlookup : lookupA tid st.tasks = some t) (hen : t.enabled = true)
    (hch : changeDetected t.last_content_hash (hash c) = true) :
    checkTask hash ⟨some c, true, true, false, eo⟩ now st tid =
      (none, { st with
        fetchLog := st.fetchLog ++ [t.url],
        snapshotFiles := st.snapshotFiles ++ [(snapPathOf now tid, c)],
        dbSnapshots := st.dbSnapshots ++
          [SnapshotRow.mk (snapIdOf now tid) tid (hash c) (snapPathOf now tid)],
        tasks := updateA tid (taskRebased t now (hash c)) st.tasks }) := by
  simp [checkTask, hlookup, hen, checkTaskBody, hch, taskRebased,
        snapIdOf, snapPathOf]

theorem checkTask_change_eventFail
    (hlookup : lookupA tid st.tasks = some t) (hen : t.enabled = true)
    (hch : changeDetected t.last_content_hash (hash c) = true) :
    checkTask hash ⟨some c, true, true, true, false⟩ now st tid =
      (none, { st with
        fetchLog := st.fetchLog ++ [t.url],
        snapshotFiles := st.snapshotFiles ++ [(snapPathOf now tid, c)],
        dbSnapshots := st.dbSnapshots ++
          [SnapshotRow.mk (snapIdOf now tid) tid (hash c) (snapPathOf now tid)],
        tasks := updateA tid (taskRebased t now (hash c)) st.tasks,
        dbTasks := updateTaskRow (taskRebased t now (hash c)) st.dbTasks }) := by
  simp [checkTask, hlookup, hen, checkTaskBody, hch, taskRebased,
        snapIdOf, snapPathOf]

end Scenarios

section TickLemmas

variable (hash : String → String) (envOf : String → Env) (now : Int)

/-- The tick dispatches exactly the due tasks, in registry order, and the
dispatched set depends only on the task list read at loop entry. -/
theorem runTickAux_fst (items : List (String × MonitorTask)) :
    ∀ st : DataSpyState,
      (runTickAux hash envOf now items st).1 =
        (items.filter fun p => isDue now p.2).map Prod.fst := by
  induction items with
  | nil => intro st; rfl
  | cons p rest ih =>
    intro st
    obtain ⟨tid, t⟩ := p
    by_cases h : isDue now t = true
    · simp [runTickAux, h, ih]
    · simp [runTickAux, h, ih]

/-- The tick's final state is the fold of `check_task` over the due tasks
only: skipped tasks contribute no state change and no fetch. -/
theorem runTickAux_snd (items : List (String × MonitorTask)) :
    ∀ st : DataSpyState,
      (runTickAux hash envOf now items st).2 =
        ((items.filter fun p => isDue now p.2).map Prod.fst).foldl
          (fun s i => (checkTask hash (envOf i) now s i).2) st := by
  induction items with
  | nil => intro st; rfl
  | cons p rest ih =>
    intro st
    obtain ⟨tid, t⟩ := p
    by_cases h : isDue now t = true
    · simp [runTickAux, h, ih]
    · simp [runTickAux, h, ih]

end TickLemmas

section SortLemmas

/-- Descending order on event rows by timestamp. -/
def rowGE (a b : EventRow) : Prop := b.timestamp ≤ a.timestamp

theorem mem_insertDesc {a r : EventRow} {l : List EventRow} :
    a ∈ insertDesc r l ↔ a = r ∨ a ∈ l := by
  induction l with
  | nil => simp [insertDesc]
  | cons x xs ih =>
    by_cases h : x.timestamp ≤ r.timestamp
    · simp [insertDesc, h]
    · simp [insertDesc, h, ih]
      tauto

theorem pairwise_insertDesc {r : EventRow} {l : List EventRow}
    (hl : l.Pairwise rowGE) : (insertDesc r l).Pairwise rowGE := by
  induction l with
  | nil => simp [insertDesc, List.Pairwise]
  | cons x xs ih =>
    rw [List.pairwise_cons] at hl
    by_cases h : x.timestamp ≤ r.timestamp
    · rw [insertDesc]
      simp only [h, if_true, List.pairwise_cons]
      refine ⟨?_, hl.1, hl.2⟩
      intro b hb
      rcases List.mem_cons.mp hb with hb | hb
      · subst hb; exact h
      · exact le_trans (hl.1 b hb) h
    · rw [insertDesc]
      simp only [h, if_false, List.pairwise_cons]
      refine ⟨?_, ih hl.2⟩
      intro b hb
      rcases mem_insertDesc.mp hb with hb | hb
      · subst hb
        exact le_of_not_le h
      · exact hl.1 b hb

theorem mem_sortDesc {a : EventRow} {l : List EventRow} :
    a ∈ sortDesc l ↔ a ∈ l := by
  induction l with
  | nil => simp [sortDesc]
  | cons x xs ih => simp [sortDesc, mem_insertDesc, ih]

theorem pairwise_sortDesc (l : List EventRow) :
    (sortDesc l).Pairwise rowGE := by
  induction l with
  | nil => simp [sortDesc]
  | cons x xs ih => exact pairwise_insertDesc ih

end SortLemmas

section MapOptLemmas

variable {α β : Type} {f : α → Option β}

theorem mapOpt_isSome (l : List α) (h : ∀ a ∈ l, (f a).isSome) :
    (mapOpt f l).isSome := by
  induction l with
  | nil => simp [mapOpt]
  | cons x xs ih =>
    have hx := h x (List.mem_cons_self x xs)
    obtain ⟨y, hy⟩ := Option.isSome_iff_exists.mp hx
    have hxs := ih fun a ha => h a (List.mem_cons_of_mem x ha)
    obtain ⟨ys, hys⟩ := Option.isSome_iff_exists.mp hxs
    simp [mapOpt, hy, hys]

theorem mapOpt_length {l : List α} {l' : List β}
    (h : mapOpt f l = some l') : l'.length = l.length := by
  induction l generalizing l' with
  | nil => simp [mapOpt] at h; simp [← h]
  | cons x xs ih =>
    rw [mapOpt] at h
    cases hx : f x with
    | none => rw [hx] at h; simp at h
    | some y =>
      rw [hx] at h
      cases hxs : mapOpt f xs with
      | none => rw [hxs] at h; simp at h
      | some ys =>
        rw [hxs] at h
        simp at h
        simp [← h, ih hxs]

theorem mapOpt_mem {l : List α} {l' : List β} {b : β}
    (h : mapOpt f l = some l') (hb : b ∈ l') :
    ∃ a ∈ l, f a = some b := by
  induction l generalizing l' with
  | nil =>
    simp [mapOpt] at h
    subst h
    simp at hb
  | cons x xs ih =>
    rw [mapOpt] at h
    cases hx : f x with
    | none => rw [hx] at h; simp at h
    | some y =>
      rw [hx] at h
      cases hxs : mapOpt f xs with
      | none => rw [hxs] at h; simp at h
      | some ys =>
        rw [hxs] at h
        simp at h
        rw [← h] at hb
        rcases List.mem_cons.mp hb with hb | hb
        · exact ⟨x, List.mem_cons_self x xs, by rw [hx, hb]⟩
        · obtain ⟨a, ha, hfa⟩ := ih hxs hb
          exact ⟨a, List.mem_cons_of_mem x ha, hfa⟩

theorem mapOpt_pairwise {R : α → α → Prop} {S : β → β → Prop}
    (hrel : ∀ a a' x y, f a = some x → f a' = some y → R a a' → S x y)
    {l : List α} {l' : List β}
    (h : mapOpt f l = some l') (hp : l.Pairwise R) : l'.Pairwise S := by
  induction l generalizing l' with
  | nil =>
    simp [mapOpt] at h
    subst h
    exact List.Pairwise.nil
  | cons x xs ih =>
    rw [mapOpt] at h
    cases hx : f x with
    | none => rw [hx] at h; simp at h
    | some y =>
      rw [hx] at h
      cases hxs : mapOpt f xs with
      | none => rw [hxs] at h; simp at h
      | some ys =>
        rw [hxs] at h
        simp at h
        rw [List.pairwise_cons] at hp
        rw [← h, List.pairwise_cons]
        refine ⟨?_, ih hxs hp.2⟩
        intro b hb
        obtain ⟨a, ha, hfa⟩ := mapOpt_mem hxs hb
        exact hrel x a y b hx hfa (hp.1 a ha)

end MapOptLemmas

theorem changeDetected_none (h : String) :
    changeDetected none h = false := rfl

theorem changeDetected_some_iff {p h : String} (hp : p ≠ "") :
    changeDetected (some p) h = true ↔ p ≠ h := by
  have hpe : p.isEmpty = false := by
    rw [Bool.eq_false_iff]
    intro hcontra
    exact hp ((String.isEmpty_iff p).mp hcontra)
  simp [changeDetected, truthyOpt, hpe]

theorem changeDetected_some_false_iff {p h : String} (hp : p ≠ "") :
    changeDetected (some p) h = false ↔ p = h := by
  rw [← Bool.not_eq_true, changeDetected_some_iff hp]
  tauto

/-- The due test of the scheduler loop, in the spec's phrasing. -/
theorem isDue_iff (now : Int) (t : MonitorTask) :
    isDue now t = true ↔
      t.enabled = true ∧
        (t.last_check = none ∨
          ∃ lc, t.last_check = some lc ∧ t.check_interval ≤ now - lc) := by
  cases hen : t.enabled with
  | false => simp [isDue, hen]
  | true =>
    cases hlc : t.last_check with
    | none => simp [isDue, hen, hlc]
    | some lc => simp [isDue, hen, hlc, Int.not_lt]

/-- After any `check_task` call on a present, enabled task, its in-memory
task dict is either untouched, or the checked entry was replaced by
`taskTouched` or by `taskRebased`. -/
theorem checkTask_tasks_eq (hash : String → String) (env : Env) (now : Int)
    (st : DataSpyState) (tid : String) (t : MonitorTask)
    (hlookup : lookupA tid st.tasks = some t) (hen : t.enabled = true) :
    (checkTask hash env now st tid).2.tasks = st.tasks ∨
    (checkTask hash env now st tid).2.tasks =
      updateA tid (taskTouched t now) st.tasks ∨
    (checkTask hash env now st tid).2.tasks =
      updateA tid (taskRebased t now (hash (env.fetchResult.getD ""))) st.tasks := by
  obtain ⟨fr, sf, si, uo, eo⟩ := env
  cases fr with
  | none =>
    left
    rw [checkTask_fetchFail hash now st tid t sf si uo eo hlookup hen]
  | some c =>
    by_cases hch : changeDetected t.last_content_hash (hash c) = true
    · cases sf with
      | false =>
        left
        rw [checkTask_change_snapFileFail hash now st tid t c si uo eo hlookup hen hch]
      | true =>
        cases si with
        | false =>
          left
          rw [checkTask_change_snapInsertFail hash now st tid t c uo eo hlookup hen hch]
        | true =>
          cases uo with
          | false =>
            right; right
            rw [checkTask_change_updateFail hash now st tid t c eo hlookup hen hch]
            rfl
          | true =>
            cases eo with
            | false =>
              right; right
              rw [checkTask_change_eventFail hash now st tid t c hlookup hen hch]
              rfl
            | true =>
              right; right
              rw [checkTask_change_ok hash now st tid t c hlookup hen hch]
              rfl
    · rw [Bool.not_eq_true] at hch
      cases uo with
      | false =>
        right; left
        rw [checkTask_noChange_updateFail hash now st tid t c sf si eo hlookup hen hch]
      | true =>
        right; left
        rw [checkTask_noChange hash now st tid t c sf si eo hlookup hen hch]

/-- A check of one task id never changes the dict entry of another id. -/
theorem checkTask_tasks_other (hash : String → String) (env : Env)
    (now : Int) (st : DataSpyState) (tid tid' : String) (h : tid' ≠ tid) :
    lookupA tid' (checkTask hash env now st tid).2.tasks =
      lookupA tid' st.tasks := by
  cases hl : lookupA tid st.tasks with
  | none => rw [checkTask_missing hash now st tid env hl]
  | some t =>
    cases hen : t.enabled with
    | false => rw [checkTask_disabled hash now st tid t env hl hen]
    | true =>
      rcases checkTask_tasks_eq hash env now st tid t hl hen with he | he | he <;>
        rw [he]
      · rw [lookupA_updateA_ne tid tid' (taskTouched t now) st.tasks h]
      · rw [lookupA_updateA_ne tid tid'
          (taskRebased t now (hash (env.fetchResult.getD ""))) st.tasks h]

theorem rowToEvent_fields {r : EventRow} {e : ChangeEvent}
    (h : rowToEvent r = some e) :
    e.timestamp = r.timestamp ∧ e.task_id = r.task_id := by
  rw [rowToEvent] at h
  cases hct : ChangeType.ofValue r.change_type with
  | none => rw [hct] at h; simp at h
  | some ct =>
    rw [hct] at h
    simp at h
    rw [← h]
    exact ⟨rfl, rfl⟩

theorem lookupA_updateA_of_present {α : Type} {k : String}
    {l : List (String × α)}
    {w : α} (h : lookupA k l = some w) (v : α) :
    lookupA k (updateA k v l) = some v := by
  rw [lookupA_updateA_self, h]
  rfl

/-- The entry of the checked task after `check_task`: it is unchanged,
`taskTouched`, or `taskRebased`; no other task value ever appears. -/
theorem checkTask_task_after (hash : String → String) (env : Env)
    (now : Int) (st : DataSpyState) (tid : String) (t : MonitorTask)
    (hlookup : lookupA tid st.tasks = some t) (hen : t.enabled = true) :
    ∀ t', lookupA tid (checkTask hash env now st tid).2.tasks = some t' →
      t' = t ∨ t' = taskTouched t now ∨
      t' = taskRebased t now (hash (env.fetchResult.getD "")) := by
  intro t' ht'
  rcases checkTask_tasks_eq hash env now st tid t hlookup hen with he | he | he
  · rw [he, hlookup] at ht'
    left
    injection ht' with h
    exact h.symm
  · rw [he, lookupA_updateA_of_present hlookup (taskTouched t now)] at ht'
    right; left
    injection ht' with h
    exact h.symm
  · rw [he, lookupA_updateA_of_present hlookup
      (taskRebased t now (hash (env.fetchResult.getD "")))] at ht'
    right; right
    injection ht' with h
    exact h.symm

/-- A digest stand-in used for concrete evaluations (the claims never
depend on the concrete digest values, only on their (in)equality). -/
def idHash : String → String := fun s => s

/-- A fresh `full_page` task, no check done yet. -/
def task0 : MonitorTask :=
  { id := "t1", name := "HN", url := "http://x", check_type := "full_page" }

/-- A `price` task whose previous successful check stored digest `"old"`
and value `"19.99"`. -/
def taskP : MonitorTask :=
  { id := "t1", name := "item", url := "http://x", check_type := "price",
    last_content_hash := some "old", last_value := some "19.99" }

/-- Registry and store holding only `task0`. -/
def st0 : DataSpyState :=
  { tasks := [("t1", task0)], dbTasks := [("t1", task0)],
    dbEvents := [], dbSnapshots := [], snapshotFiles := [], fetchLog := [] }

/-- Registry and store holding only `taskP`. -/
def stP : DataSpyState :=
  { tasks := [("t1", taskP)], dbTasks := [("t1", taskP)],
    dbEvents := [], dbSnapshots := [], snapshotFiles := [], fetchLog := [] }

/-- C1 (code_bug evidence): a first successful check (stored
`last_content_hash` is `None`) emits no `ChangeEvent` — but, contrary to
the claim and the spec's baseline rule, the code leaves
`last_content_hash` equal to `None` after the check (line 191 guards the
only assignment to it by `task.last_content_hash` being truthy), so no
baseline is ever established. -/
theorem first_success_leaves_baseline_unset
    (hash : String → String) (env : Env) (now : Int) (st : DataSpyState)
    (tid : String) (t : MonitorTask) (c : String)
    (hlookup : lookupA tid st.tasks = some t) (hen : t.enabled = true)
    (hbase : t.last_content_hash = none)
    (hfetch : env.fetchResult = some c) :
    (checkTask hash env now st tid).1 = none ∧
    ∀ t', lookupA tid (checkTask hash env now st tid).2.tasks = some t' →
      t'.last_content_hash = none ∧ t'.last_check = some now := by
  obtain ⟨fr, sf, si, uo, eo⟩ := env
  simp only at hfetch
  subst hfetch
  have hch : changeDetected t.last_content_hash (hash c) = false := by
    rw [hbase]
    rfl
  have hfin : ∀ t', lookupA tid (updateA tid (taskTouched t now) st.tasks) = some t' →
      t'.last_content_hash = none ∧ t'.last_check = some now := by
    intro t' ht'
    rw [lookupA_updateA_of_present hlookup (taskTouched t now)] at ht'
    injection ht' with h
    rw [← h]
    exact ⟨hbase, rfl⟩
  cases uo with
  | false =>
    rw [checkTask_noChange_updateFail hash now st tid t c sf si eo hlookup hen hch]
    exact ⟨rfl, hfin⟩
  | true =>
    rw [checkTask_noChange hash now st tid t c sf si eo hlookup hen hch]
    exact ⟨rfl, hfin⟩

/-- C1 witness: the general theorem applied to a fresh task whose fetch
succeeds with body `"body"` at time 7. -/
theorem first_success_leaves_baseline_unset_witness :
    lookupA "t1" (checkTask idHash { fetchResult := some "body" } 7 st0 "t1").2.tasks =
      some (taskTouched task0 7) ∧
    (taskTouched task0 7).last_content_hash = none ∧
    (checkTask idHash { fetchResult := some "body" } 7 st0 "t1").1 = none := by
  have h := first_success_leaves_baseline_unset idHash
    { fetchResult := some "body" } 7 st0 "t1" task0 "body"
    (by decide) (by decide) (by decide) rfl
  exact ⟨by decide, (h.2 (taskTouched task0 7) (by decide)).1, h.1⟩

/-- C2 counterexample: a failed fetch does not set `lastCheck`.  The task
`task0` has `last_check = None`; the fetch at time 7 fails, and afterwards
its `last_check` is still `None`, so the claim's "lastCheck is set on
every attempt, success or failure" is false of the code. -/
theorem lastCheck_not_set_on_failed_fetch :
    (checkTask idHash { fetchResult := none } 7 st0 "t1").1 = none ∧
    lookupA "t1" (checkTask idHash { fetchResult := none } 7 st0 "t1").2.tasks =
      some task0 ∧
    task0.last_check = none := by
  refine ⟨rfl, by decide, rfl⟩

/-- C2 (amended): `lastCheck` is set to the clock value on every check
whose fetch succeeds (when a change is detected, only if the snapshot
write also succeeds); it is unchanged when the fetch fails; whenever the
clock is monotone (`lc ≤ now`) `lastCheck` is non-decreasing across
attempts; `lastValue` is never modified, and the stored task changes at
all only through `taskTouched`/`taskRebased`. -/
theorem lastCheck_update_discipline
    (hash : String → String) (env : Env) (now : Int) (st : DataSpyState)
    (tid : String) (t : MonitorTask)
    (hlookup : lookupA tid st.tasks = some t) (hen : t.enabled = true) :
    (env.fetchResult = none →
      lookupA tid (checkTask hash env now st tid).2.tasks = some t) ∧
    (∀ c, env.fetchResult = some c →
      changeDetected t.last_content_hash (hash c) = false →
      lookupA tid (checkTask hash env now st tid).2.tasks =
        some (taskTouched t now)) ∧
    (∀ c, env.fetchResult = some c →
      changeDetected t.last_content_hash (hash c) = true →
      env.snapFileOk = true → env.snapInsertOk = true →
      lookupA tid (checkTask hash env now st tid).2.tasks =
        some (taskRebased t now (hash c))) ∧
    (∀ c, env.fetchResult = some c →
      changeDetected t.last_content_hash (hash c) = true →
      (env.snapFileOk = false ∨ env.snapInsertOk = false) →
      lookupA tid (checkTask hash env now st tid).2.tasks = some t) ∧
    (∀ t', lookupA tid (checkTask hash env now st tid).2.tasks = some t' →
      t'.last_value = t.last_value ∧
      (t'.last_check = t.last_check ∨ t'.last_check = some now)) ∧
    (∀ t' lc lc',
      lookupA tid (checkTask hash env now st tid).2.tasks = some t' →
      t.last_check = some lc → t'.last_check = some lc' → lc ≤ now →
      lc ≤ lc') := by
  obtain ⟨fr, sf, si, uo, eo⟩ := env
  refine ⟨?_, ?_, ?_, ?_, ?_, ?_⟩
  · intro hfr
    simp only at hfr
    subst hfr
    rw [checkTask_fetchFail hash now st tid t sf si uo eo hlookup hen]
    exact hlookup
  · intro c hfr hch
    simp only at hfr
    subst hfr
    cases uo with
    | false =>
      rw [checkTask_noChange_updateFail hash now st tid t c sf si eo hlookup hen hch]
      exact lookupA_updateA_of_present hlookup (taskTouched t now)
    | true =>
      rw [checkTask_noChange hash now st tid t c sf si eo hlookup hen hch]
      exact lookupA_updateA_of_present hlookup (taskTouched t now)
  · intro c hfr hch hsf hsi
    simp only at hfr hsf hsi
    subst hfr
    subst hsf
    subst hsi
    cases uo with
    | false =>
      rw [checkTask_change_updateFail hash now st tid t c eo hlookup hen hch]
      exact lookupA_updateA_of_present hlookup (taskRebased t now (hash c))
    | true =>
      cases eo with
      | false =>
        rw [checkTask_change_eventFail hash now st tid t c hlookup hen hch]
        exact lookupA_updateA_of_present hlookup (taskRebased t now (hash c))
      | true =>
        rw [checkTask_change_ok hash now st tid t c hlookup hen hch]
        exact lookupA_updateA_of_present hlookup (taskRebased t now (hash c))
  · intro c hfr hch hfail
    simp only at hfr
    subst hfr
    rcases hfail with hsf | hsi
    · simp only at hsf
      subst hsf
      rw [checkTask_change_snapFileFail hash now st tid t c si uo eo hlookup hen hch]
      exact hlookup
    · simp only at hsi
      subst hsi
      cases sf with
      | false =>
        rw [checkTask_change_snapFileFail hash now st tid t c false uo eo hlookup hen hch]
        exact hlookup
      | true =>
        rw [checkTask_change_snapInsertFail hash now st tid t c uo eo hlookup hen hch]
        exact hlookup
  · intro t' ht'
    rcases checkTask_task_after hash ⟨fr, sf, si, uo, eo⟩ now st tid t
      hlookup hen t' ht' with h | h | h <;> subst h
    · exact ⟨rfl, Or.inl rfl⟩
    · exact ⟨rfl, Or.inr rfl⟩
    · exact ⟨rfl, Or.inr rfl⟩
  · intro t' lc lc' ht' hlc hlc' hle
    rcases checkTask_task_after hash ⟨fr, sf, si, uo, eo⟩ now st tid t
      hlookup hen t' ht' with h | h | h <;> subst h
    · rw [hlc] at hlc'
      injection hlc' with h2
      rw [← h2]
    · simp only [taskTouched] at hlc'
      injection hlc' with h2
      rw [← h2]
      exact hle
    · simp only [taskRebased] at hlc'
      injection hlc' with h2
      rw [← h2]
      exact hle

/-- C2 witness: on `task0` (never checked, `last_check = None`) with a
successful fetch of `"body"` at time 7, the stored task becomes
`taskTouched task0 7`, i.e. `last_check = some 7`. -/
theorem lastCheck_update_discipline_witness :
    lookupA "t1" (checkTask idHash { fetchResult := some "body" } 7 st0 "t1").2.tasks =
      some (taskTouched task0 7) ∧
    (taskTouched task0 7).last_check = some 7 :=
  ⟨(lastCheck_update_discipline idHash { fetchResult := some "body" } 7 st0 "t1"
      task0 (by decide) (by decide)).2.1 "body" rfl rfl, rfl⟩

/-- C3: for a check against a stored non-`None` comparable value `p`
(a sha256 hexdigest, hence non-empty) whose fetch and persistence
succeed, a `content_changed` event is emitted iff the new comparable
value `hash c` differs from `p`; when the fetched content hashes to `p`
(in particular when it is byte-identical to the previous content) no
event is emitted and the stored comparable value is left unchanged
(`taskTouched` keeps `last_content_hash = some p`). -/
theorem content_change_event_iff
    (hash : String → String) (now : Int) (st : DataSpyState)
    (tid : String) (t : MonitorTask) (p c : String)
    (hlookup : lookupA tid st.tasks = some t) (hen : t.enabled = true)
    (hprev : t.last_content_hash = some p) (hp : p ≠ "") :
    ((checkTask hash ⟨some c, true, true, true, true⟩ now st tid).1 ≠ none ↔
      hash c ≠ p) ∧
    (∀ e, (checkTask hash ⟨some c, true, true, true, true⟩ now st tid).1 = some e →
      e.change_type = ChangeType.content_changed) ∧
    (hash c = p →
      (checkTask hash ⟨some c, true, true, true, true⟩ now st tid).1 = none ∧
      lookupA tid (checkTask hash ⟨some c, true, true, true, true⟩ now st tid).2.tasks =
        some (taskTouched t now) ∧
      (taskTouched t now).last_content_hash = some p) := by
  by_cases heq : hash c = p
  · have hch : changeDetected t.last_content_hash (hash c) = false := by
      rw [hprev]
      exact (changeDetected_some_false_iff hp).mpr heq.symm
    rw [checkTask_noChange hash now st tid t c true true true hlookup hen hch]
    refine ⟨by simp [heq], ?_, ?_⟩
    · intro e he
      simp at he
    · intro _
      refine ⟨rfl, lookupA_updateA_of_present hlookup (taskTouched t now), ?_⟩
      simp [taskTouched, hprev]
  · have hch : changeDetected t.last_content_hash (hash c) = true := by
      rw [hprev]
      exact (changeDetected_some_iff hp).mpr fun h2 => heq h2.symm
    rw [checkTask_change_ok hash now st tid t c hlookup hen hch]
    refine ⟨by simp [heq], ?_, fun h2 => absurd h2 heq⟩
    intro e he
    injection he with h2
    rw [← h2]
    rfl

/-- C3 witness: `taskP` stored digest `"old"`; fetching content that
hashes to `"new"` emits an event. -/
theorem content_change_event_iff_witness :
    (checkTask idHash ⟨some "new", true, true, true, true⟩ 7 stP "t1").1 ≠ none :=
  (content_change_event_iff idHash 7 stP "t1" taskP "old" "new"
    (by decide) (by decide) (by decide) (by decide)).1.mpr (by decide)

/-- C4 (code_bug evidence): every event `check_task` can ever return has
change type `content_changed` — regardless of the task's `check_type`.
The code never parses a numeric value and never constructs
`price_dropped`/`price_rose` events, so the claimed price
classification does not exist in the code. -/
theorem only_content_changed_events
    (hash : String → String) (env : Env) (now : Int) (st : DataSpyState)
    (tid : String) :
    ∀ e, (checkTask hash env now st tid).1 = some e →
      e.change_type = ChangeType.content_changed := by
  intro e he
  cases hl : lookupA tid st.tasks with
  | none =>
    rw [checkTask_missing hash now st tid env hl] at he
    simp at he
  | some t =>
    cases hen : t.enabled with
    | false =>
      rw [checkTask_disabled hash now st tid t env hl hen] at he
      simp at he
    | true =>
      obtain ⟨fr, sf, si, uo, eo⟩ := env
      cases fr with
      | none =>
        rw [checkTask_fetchFail hash now st tid t sf si uo eo hl hen] at he
        simp at he
      | some c =>
        by_cases hch : changeDetected t.last_content_hash (hash c) = true
        · cases sf with
          | false =>
            rw [checkTask_change_snapFileFail hash now st tid t c si uo eo hl hen hch] at he
            simp at he
          | true =>
            cases si with
            | false =>
              rw [checkTask_change_snapInsertFail hash now st tid t c uo eo hl hen hch] at he
              simp at he
            | true =>
              cases uo with
              | false =>
                rw [checkTask_change_updateFail hash now st tid t c eo hl hen hch] at he
                simp at he
              | true =>
                cases eo with
                | false =>
                  rw [checkTask_change_eventFail hash now st tid t c hl hen hch] at he
                  simp at he
                | true =>
                  rw [checkTask_change_ok hash now st tid t c hl hen hch] at he
                  injection he with h2
                  rw [← h2]
                  rfl
        · rw [Bool.not_eq_true] at hch
          cases uo with
          | false =>
            rw [checkTask_noChange_updateFail hash now st tid t c sf si eo hl hen hch] at he
            simp at he
          | true =>
            rw [checkTask_noChange hash now st tid t c sf si eo hl hen hch] at he
            simp at he

/-- The event the code emits for `taskP` when the fetched body `"17.50"`
replaces stored digest `"old"`. -/
def evP : ChangeEvent := changeEventOf 7 "t1" "old" "17.50" "17.50"

/-- C4 witness: a `price` task whose price dropped from 19.99 to 17.50
yields a `content_changed` event, not `price_dropped`. -/
theorem only_content_changed_events_witness :
    (checkTask idHash { fetchResult := some "17.50" } 7 stP "t1").1 = some evP ∧
    evP.change_type = ChangeType.content_changed :=
  ⟨by decide,
   only_content_changed_events idHash { fetchResult := some "17.50" } 7 stP "t1"
     evP (by decide)⟩

/-- C5: on one wake of the scheduler loop, a task id is dispatched to
`check_task` iff some registry entry under that id is enabled and either
has `last_check = None` or satisfies `now - last_check ≥ check_interval`;
moreover the tick's final state is the fold of `check_task` over exactly
the dispatched ids, so tasks not due contribute no state change and no
fetch. -/
theorem scheduler_dispatch_iff (hash : String → String)
    (envOf : String → Env) (now : Int) (st : DataSpyState) :
    (∀ tid, tid ∈ (runTick hash envOf now st).1 ↔
      ∃ t, (tid, t) ∈ st.tasks ∧ t.enabled = true ∧
        (t.last_check = none ∨
          ∃ lc, t.last_check = some lc ∧ t.check_interval ≤ now - lc)) ∧
    (runTick hash envOf now st).2 =
      ((st.tasks.filter fun p => isDue now p.2).map Prod.fst).foldl
        (fun s i => (checkTask hash (envOf i) now s i).2) st := by
  constructor
  · intro tid
    rw [runTick, runTickAux_fst]
    simp only [List.mem_map, List.mem_filter]
    constructor
    · rintro ⟨⟨tid', t⟩, ⟨hmem, hdue⟩, hfst⟩
      simp only at hfst
      subst hfst
      exact ⟨t, hmem, (isDue_iff now t).mp hdue⟩
    · rintro ⟨t, hmem, hcond⟩
      exact ⟨(tid, t), ⟨hmem, (isDue_iff now t).mpr hcond⟩, rfl⟩
  · rw [runTick, runTickAux_snd]

/-- C6 counterexample: with `taskP` (stored digest `"old"`), new content
hashing to `"new"`, and the `events` insert failing, the check detects a
change and persists a snapshot, yet emits no `ChangeEvent` (it returns
`None` and the events table stays empty) — so "a snapshot is created iff
the check detected a change and emitted a ChangeEvent" is false, as is
"checks that fail create no snapshot". -/
theorem snapshot_without_event :
    (checkTask idHash ⟨some "new", true, true, true, false⟩ 7 stP "t1").1 = none ∧
    (checkTask idHash ⟨some "new", true, true, true, false⟩ 7 stP "t1").2.dbSnapshots =
      [SnapshotRow.mk (snapIdOf 7 "t1") "t1" "new" (snapPathOf 7 "t1")] ∧
    (checkTask idHash ⟨some "new", true, true, true, false⟩ 7 stP "t1").2.dbEvents = [] ∧
    stP.dbSnapshots = [] := by
  refine ⟨rfl, by decide, rfl, rfl⟩

/-- C6 (amended): an emitted `ChangeEvent` always comes with exactly one
appended snapshot; when all persistence steps succeed a snapshot is
created iff an event is emitted; a failed fetch creates no snapshot.
(When the durable task update or the event insert fails after the
snapshot write, a snapshot exists without an emitted event.) -/
theorem snapshot_iff_change_committed
    (hash : String → String) (env : Env) (now : Int) (st : DataSpyState)
    (tid : String) (t : MonitorTask)
    (hlookup : lookupA tid st.tasks = some t) (hen : t.enabled = true) :
    (∀ e, (checkTask hash env now st tid).1 = some e →
      (checkTask hash env now st tid).2.dbSnapshots = st.dbSnapshots ++
        [SnapshotRow.mk (snapIdOf now tid) tid
          (hash (env.fetchResult.getD "")) (snapPathOf now tid)]) ∧
    (env.snapFileOk = true → env.snapInsertOk = true →
      env.updateOk = true → env.eventOk = true →
      ((checkTask hash env now st tid).2.dbSnapshots ≠ st.dbSnapshots ↔
        (checkTask hash env now st tid).1 ≠ none)) ∧
    (env.fetchResult = none →
      (checkTask hash env now st tid).2.dbSnapshots = st.dbSnapshots) := by
  have happ : ∀ (l : List SnapshotRow) x, l ++ [x] ≠ l := by
    intro l x h
    simpa using congrArg List.length h
  obtain ⟨fr, sf, si, uo, eo⟩ := env
  refine ⟨?_, ?_, ?_⟩
  · intro e he
    cases fr with
    | none =>
      rw [checkTask_fetchFail hash now st tid t sf si uo eo hlookup hen] at he ⊢
      simp at he
    | some c =>
      by_cases hch : changeDetected t.last_content_hash (hash c) = true
      · cases sf with
        | false =>
          rw [checkTask_change_snapFileFail hash now st tid t c si uo eo hlookup hen hch] at he
          simp at he
        | true =>
          cases si with
          | false =>
            rw [checkTask_change_snapInsertFail hash now st tid t c uo eo hlookup hen hch] at he
            simp at he
          | true =>
            cases uo with
            | false =>
              rw [checkTask_change_updateFail hash now st tid t c eo hlookup hen hch] at he
              simp at he
            | true =>
              cases eo with
              | false =>
                rw [checkTask_change_eventFail hash now st tid t c hlookup hen hch] at he
                simp at he
              | true =>
                rw [checkTask_change_ok hash now st tid t c hlookup hen hch]
                rfl
      · rw [Bool.not_eq_true] at hch
        cases uo with
        | false =>
          rw [checkTask_noChange_updateFail hash now st tid t c sf si eo hlookup hen hch] at he
          simp at he
        | true =>
          rw [checkTask_noChange hash now st tid t c sf si eo hlookup hen hch] at he
          simp at he
  · intro hsf hsi huo heo
    simp only at hsf hsi huo heo
    subst hsf
    subst hsi
    subst huo
    subst heo
    cases fr with
    | none =>
      rw [checkTask_fetchFail hash now st tid t true true true true hlookup hen]
      simp
    | some c =>
      by_cases hch : changeDetected t.last_content_hash (hash c) = true
      · rw [checkTask_change_ok hash now st tid t c hlookup hen hch]
        simp only []
        constructor
        · intro _
          simp
        · intro _
          exact happ st.dbSnapshots _
      · rw [Bool.not_eq_true] at hch
        rw [checkTask_noChange hash now st tid t c true true true hlookup hen hch]
        simp
  · intro hfr
    simp only at hfr
    subst hfr
    rw [checkTask_fetchFail hash now st tid t sf si uo eo hlookup hen]

/-- C6 witness: a failure-free check of `taskP` that detects a change
appends a snapshot. -/
theorem snapshot_iff_change_committed_witness :
    (checkTask idHash ⟨some "new", true, true, true, true⟩ 7 stP "t1").2.dbSnapshots ≠
      stP.dbSnapshots :=
  ((snapshot_iff_change_committed idHash ⟨some "new", true, true, true, true⟩ 7
      stP "t1" taskP (by decide) (by decide)).2.1 rfl rfl rfl rfl).mpr (by decide)

/-- C7: provided every stored row carries a valid change-type string (as
every row written by `_save_event` does), `get_events` returns a list
that is ordered newest-first (non-increasing timestamps), contains at
most `limit` events, and — when a task id is given — only events of that
task. -/
theorem get_events_spec (db : List EventRow) (taskFilter : Option String)
    (limit : Nat)
    (hvalid : ∀ r ∈ db, (ChangeType.ofValue r.change_type).isSome) :
    (get_events db taskFilter limit).isSome ∧
    ∀ es, get_events db taskFilter limit = some es →
      es.Pairwise (fun a b : ChangeEvent => b.timestamp ≤ a.timestamp) ∧
      es.length ≤ limit ∧
      ∀ e ∈ es, ∀ s, taskFilter = some s → e.task_id = s := by
  have hsub : ∀ r ∈ selectEvents db taskFilter limit, r ∈ db := by
    intro r hr
    simp only [selectEvents] at hr
    have hr2 := List.take_subset _ _ hr
    rw [mem_sortDesc] at hr2
    cases taskFilter with
    | none => exact hr2
    | some s => exact (List.mem_filter.mp hr2).1
  constructor
  · refine mapOpt_isSome _ ?_
    intro r hr
    rw [rowToEvent]
    rcases Option.isSome_iff_exists.mp (hvalid r (hsub r hr)) with ⟨ct, hct⟩
    rw [hct]
    rfl
  · intro es hes
    refine ⟨?_, ?_, ?_⟩
    · have hsorted : (selectEvents db taskFilter limit).Pairwise rowGE := by
        simp only [selectEvents]
        exact (pairwise_sortDesc _).sublist (List.take_sublist _ _)
      refine mapOpt_pairwise ?_ hes hsorted
      intro a a' x y hax hay hge
      have h1 := (rowToEvent_fields hax).1
      have h2 := (rowToEvent_fields hay).1
      rw [h1, h2]
      exact hge
    · rw [mapOpt_length hes]
      simp only [selectEvents]
      exact List.length_take_le _ _
    · intro e he s hs
      subst hs
      obtain ⟨r, hr, hre⟩ := mapOpt_mem hes he
      have hrt : r.task_id = s := by
        simp only [selectEvents] at hr
        have hr2 := List.take_subset _ _ hr
        rw [mem_sortDesc] at hr2
        have := (List.mem_filter.mp hr2).2
        simpa using this
      rw [(rowToEvent_fields hre).2, hrt]

/-- A stored event row of task `t1` at time 5. -/
def row1 : EventRow := ⟨"e1", "t1", 5, "content_changed", none, none, ""⟩

/-- A stored event row of task `t2` at time 9. -/
def row2 : EventRow := ⟨"e2", "t2", 9, "content_changed", none, none, ""⟩

/-- C7 witness: `get_events` over a concrete two-row table returns. -/
theorem get_events_spec_witness :
    (get_events [row1, row2] none 1).isSome :=
  (get_events_spec [row1, row2] none 1 (by decide)).1

/-- C8: no per-task error escapes the check executor — whenever the body
of the `try:` block raises (fetch error, non-2xx, or any persistence
failure), `check_task` returns the value `None` rather than propagating;
and the set of tasks the scheduler tick evaluates is independent of the
per-task outcomes, so one task's failure never prevents the remaining
tasks from being dispatched. -/
theorem errors_confined_to_check (hash : String → String)
    (envOf envOf' : String → Env) (env : Env) (now : Int)
    (st : DataSpyState) (tid : String) (t : MonitorTask) :
    (∀ msg st', lookupA tid st.tasks = some t → t.enabled = true →
      checkTaskBody hash env now st tid t = (.error msg, st') →
      checkTask hash env now st tid = (none, st')) ∧
    (runTick hash envOf now st).1 = (runTick hash envOf' now st).1 := by
  constructor
  · intro msg st' hlookup hen hbody
    simp [checkTask, hlookup, hen, hbody]
  · rw [runTick, runTick, runTickAux_fst, runTickAux_fst]

/-- C8 witness: a failed fetch on `task0` is converted to `None` with
only the attempted fetch logged. -/
theorem errors_confined_to_check_witness :
    checkTask idHash { fetchResult := none } 7 st0 "t1" =
      (none, { st0 with fetchLog := st0.fetchLog ++ [task0.url] }) :=
  (errors_confined_to_check idHash (fun _ => { fetchResult := none })
      (fun _ => { fetchResult := none }) { fetchResult := none } 7 st0 "t1"
      task0).1
    "FetchError" { st0 with fetchLog := st0.fetchLog ++ [task0.url] }
    (by decide) (by decide) rfl

/-- C9 counterexample: with `taskP`, fetched content hashing to `"new"`
and the durable task update failing, `check_task` leaves the in-memory
task rebased to the new digest while the database row still carries the
old one and no event is appended — the prior task state is *not* left
untouched and memory and store diverge, refuting atomicity. -/
theorem task_update_failure_diverges :
    (checkTask idHash ⟨some "new", true, true, false, true⟩ 7 stP "t1").1 = none ∧
    lookupA "t1"
      (checkTask idHash ⟨some "new", true, true, false, true⟩ 7 stP "t1").2.tasks =
      some (taskRebased taskP 7 "new") ∧
    lookupA "t1"
      (checkTask idHash ⟨some "new", true, true, false, true⟩ 7 stP "t1").2.dbTasks =
      some taskP ∧
    (checkTask idHash ⟨some "new", true, true, false, true⟩ 7 stP "t1").2.dbEvents = [] ∧
    taskRebased taskP 7 "new" ≠ taskP := by
  refine ⟨rfl, by decide, by decide, rfl, by decide⟩

/-- C9 (amended): persistence of a detected change is *not* one atomic
unit.  The writes happen in the order snapshot → in-memory task →
durable task row → event row, and a failure at any step keeps every
earlier step's effect: a snapshot-write failure aborts before any task
update; a durable task-update failure leaves the in-memory task already
rebased while store and event log keep the prior state; an event-insert
failure commits the task state (memory and store) with no event; only
when every write succeeds do task state, snapshot and event commit
together with the event returned. -/
theorem persistence_failure_semantics (hash : String → String) (now : Int)
    (st : DataSpyState) (tid : String) (t : MonitorTask) (c : String)
    (hlookup : lookupA tid st.tasks = some t) (hen : t.enabled = true)
    (hch : changeDetected t.last_content_hash (hash c) = true) :
    (∀ eo, checkTask hash ⟨some c, true, true, false, eo⟩ now st tid =
      (none, { st with
        fetchLog := st.fetchLog ++ [t.url],
        snapshotFiles := st.snapshotFiles ++ [(snapPathOf now tid, c)],
        dbSnapshots := st.dbSnapshots ++
          [SnapshotRow.mk (snapIdOf now tid) tid (hash c) (snapPathOf now tid)],
        tasks := updateA tid (taskRebased t now (hash c)) st.tasks })) ∧
    (checkTask hash ⟨some c, true, true, true, false⟩ now st tid =
      (none, { st with
        fetchLog := st.fetchLog ++ [t.url],
        snapshotFiles := st.snapshotFiles ++ [(snapPathOf now tid, c)],
        dbSnapshots := st.dbSnapshots ++
          [SnapshotRow.mk (snapIdOf now tid) tid (hash c) (snapPathOf now tid)],
        tasks := updateA tid (taskRebased t now (hash c)) st.tasks,
        dbTasks := updateTaskRow (taskRebased t now (hash c)) st.dbTasks })) ∧
    (checkTask hash ⟨some c, true, true, true, true⟩ now st tid =
      (some (changeEventOf now tid (t.last_content_hash.getD "") (hash c) c),
       { st with
        fetchLog := st.fetchLog ++ [t.url],
        snapshotFiles := st.snapshotFiles ++ [(snapPathOf now tid, c)],
        dbSnapshots := st.dbSnapshots ++
          [SnapshotRow.mk (snapIdOf now tid) tid (hash c) (snapPathOf now tid)],
        tasks := updateA tid (taskRebased t now (hash c)) st.tasks,
        dbTasks := updateTaskRow (taskRebased t now (hash c)) st.dbTasks,
        dbEvents := st.dbEvents ++
          [eventToRow (changeEventOf now tid (t.last_content_hash.getD "") (hash c) c)] })) ∧
    (∀ si uo eo, checkTask hash ⟨some c, false, si, uo, eo⟩ now st tid =
      (none, { st with fetchLog := st.fetchLog ++ [t.url] })) := by
  refine ⟨?_, ?_, ?_, ?_⟩
  · intro eo
    exact checkTask_change_updateFail hash now st tid t c eo hlookup hen hch
  · exact checkTask_change_eventFail hash now st tid t c hlookup hen hch
  · exact checkTask_change_ok hash now st tid t c hlookup hen hch
  · intro si uo eo
    exact checkTask_change_snapFileFail hash now st tid t c si uo eo hlookup hen hch

/-- C9 witness: the event-insert-failure case instantiated on `taskP`. -/
theorem persistence_failure_semantics_witness :
    checkTask idHash ⟨some "new", true, true, true, false⟩ 7 stP "t1" =
      (none, { stP with
        fetchLog := stP.fetchLog ++ [taskP.url],
        snapshotFiles := stP.snapshotFiles ++ [(snapPathOf 7 "t1", "new")],
        dbSnapshots := stP.dbSnapshots ++
          [SnapshotRow.mk (snapIdOf 7 "t1") "t1" (idHash "new") (snapPathOf 7 "t1")],
        tasks := updateA "t1" (taskRebased taskP 7 (idHash "new")) stP.tasks,
        dbTasks := updateTaskRow (taskRebased taskP 7 (idHash "new")) stP.dbTasks }) :=
  (persistence_failure_semantics idHash 7 stP "t1" taskP "new"
    (by decide) (by decide) (by decide)).2.1

/-- A disabled task and a state holding only it. -/
def taskD : MonitorTask :=
  { id := "t2", name := "off", url := "http://y", check_type := "full_page",
    enabled := false }

/-- Registry and store holding only the disabled `taskD`. -/
def stD : DataSpyState :=
  { tasks := [("t2", taskD)], dbTasks := [("t2", taskD)],
    dbEvents := [], dbSnapshots := [], snapshotFiles := [], fetchLog := [] }

/-- C10: `check_task` never changes the dict entry of any other task id;
on the checked task every field except `last_check` and
`last_content_hash` is preserved (in particular `last_value` and the
schedule fields); and for a missing or disabled task it returns `None`
and leaves the whole state — including the fetch log, so no fetch
happens — untouched. -/
theorem checkTask_frame (hash : String → String) (env : Env) (now : Int)
    (st : DataSpyState) (tid : String) :
    (∀ tid', tid' ≠ tid →
      lookupA tid' (checkTask hash env now st tid).2.tasks =
        lookupA tid' st.tasks) ∧
    (∀ t t', lookupA tid st.tasks = some t →
      lookupA tid (checkTask hash env now st tid).2.tasks = some t' →
      t'.id = t.id ∧ t'.name = t.name ∧ t'.url = t.url ∧
      t'.check_type = t.check_type ∧ t'.selector = t.selector ∧
      t'.json_path = t.json_path ∧ t'.check_interval = t.check_interval ∧
      t'.last_value = t.last_value ∧ t'.enabled = t.enabled ∧
      t'.created_at = t.created_at) ∧
    (lookupA tid st.tasks = none → checkTask hash env now st tid = (none, st)) ∧
    (∀ t, lookupA tid st.tasks = some t → t.enabled = false →
      checkTask hash env now st tid = (none, st)) := by
  refine ⟨?_, ?_, ?_, ?_⟩
  · intro tid' hne
    exact checkTask_tasks_other hash env now st tid tid' hne
  · intro t t' hlookup ht'
    cases hen : t.enabled with
    | false =>
      rw [checkTask_disabled hash now st tid t env hlookup hen] at ht'
      rw [hlookup] at ht'
      injection ht' with h2
      subst h2
      exact ⟨rfl, rfl, rfl, rfl, rfl, rfl, rfl, rfl, hen, rfl⟩
    | true =>
      rcases checkTask_task_after hash env now st tid t hlookup hen t' ht'
        with h | h | h <;> subst h <;>
        exact ⟨rfl, rfl, rfl, rfl, rfl, rfl, rfl, rfl, hen, rfl⟩
  · intro hnone
    exact checkTask_missing hash now st tid env hnone
  · intro t hlookup hen
    exact checkTask_disabled hash now st tid t env hlookup hen

/-- C10 witness: a disabled task is skipped with no state change, and an
unrelated id's entry is untouched. -/
theorem checkTask_frame_witness :
    checkTask idHash { fetchResult := some "body" } 7 stD "t2" = (none, stD) ∧
    lookupA "zzz" (checkTask idHash { fetchResult := some "body" } 7 stD "t2").2.tasks =
      lookupA "zzz" stD.tasks :=
  ⟨(checkTask_frame idHash { fetchResult := some "body" } 7 stD "t2").2.2.2
      taskD (by decide) (by decide),
   (checkTask_frame idHash { fetchResult := some "body" } 7 stD "t2").1
      "zzz" (by decide)⟩

/-- C5 witness: the never-checked `task0` is due and gets dispatched. -/
theorem scheduler_dispatch_iff_witness :
    "t1" ∈ (runTick idHash (fun _ => { fetchResult := some "body" }) 7 st0).1 :=
  ((scheduler_dispatch_iff idHash (fun _ => { fetchResult := some "body" })
      7 st0).1 "t1").mpr
    ⟨task0, by decide, by decide, Or.inl (by decide)⟩
